import Mathlib

/-!
# Verification of the complytime-collector-components JWT gateway and truthbeam config

Shallow embedding of:
* `middleware.JWTAuthMiddleware` (Gin middleware validating bound service account
  tokens by Kubernetes OIDC verification), including the DNS-bypass dial rewrite,
  the verifier configuration, and the per-request authentication pipeline;
* `truthbeam.Config.Validate` (configuration validation and default normalization).

Strings are modelled as `List Char`. Stateful per-request handling is modelled
as explicit state passing over a `GinContext` record. External library effects
(the in-cluster config loader, the OIDC provider construction, and the token
verifier) are abstracted as explicit inputs, since their code is outside this
repository; everything the repository's own code does with them is embedded.
-/

/-! ## String utilities mirroring the Go standard library calls used in the source -/

/-- Go `strings.Contains(s, pat)`: `pat` occurs as a contiguous substring of `s`. -/
def substrContains : List Char → List Char → Bool
  | [], pat => pat.isEmpty
  | c :: rest, pat => pat.isPrefixOf (c :: rest) || substrContains rest pat

/-- Go `strings.Replace(s, pat, rep, 1)` for a non-empty `pat`: replace the first
occurrence of `pat` in `s` by `rep`; `s` unchanged when `pat` does not occur. -/
def replaceFirst : List Char → List Char → List Char → List Char
  | [], _, _ => []
  | c :: rest, pat, rep =>
    if pat.isPrefixOf (c :: rest) then rep ++ (c :: rest).drop pat.length
    else c :: replaceFirst rest pat rep

/-- Go `strings.SplitN(s, sep, 2)` where `sep` is a single character: the part
before the first occurrence of `sep`, and `some` remainder when `sep` occurs. -/
def goSplitN2 (sep : Char) : List Char → List Char × Option (List Char)
  | [] => ([], none)
  | c :: rest =>
    if c = sep then ([], some rest)
    else ((c :: (goSplitN2 sep rest).1), (goSplitN2 sep rest).2)

/-- Go `os.Getenv`: value of the named variable, or the empty string when absent. -/
def getEnv (env : List (List Char × List Char)) (name : List Char) : List Char :=
  match env.find? (fun kv => kv.1 == name) with
  | some kv => kv.2
  | none => []

/-! ## Data model of the middleware package -/

/-- The literal `"kubernetes.default.svc"` appearing in the dial override. -/
def canonicalServiceName : List Char := "kubernetes.default.svc".data

/-- The literal `"https://kubernetes.default.svc"` used as fallback host and issuer. -/
def canonicalServiceURL : List Char := "https://kubernetes.default.svc".data

/-- The literal `"Bearer"` of the Authorization scheme check. -/
def bearerWord : List Char := "Bearer".data

/-- The claim key `"sub"`. -/
def subClaimKey : List Char := "sub".data

/-- The environment variable name `"KUBERNETES_SERVICE_IP"`. -/
def kubernetesServiceIPVar : List Char := "KUBERNETES_SERVICE_IP".data

/-- `middleware.JWTAuthConfig`. -/
structure JWTAuthConfig where
  expectedAudience : List Char
  allowedSubjects : List (List Char)
deriving DecidableEq

/-- A decoded JWT claim value: a JSON value, of which the code only inspects
whether `claims["sub"]` is a string. -/
inductive ClaimValue where
  | str (s : List Char)
  | num (n : Int)
  | other
deriving DecidableEq

/-- `jwt.MapClaims`: mapping from claim name to value. -/
abbrev Claims := List (List Char × ClaimValue)

/-- Go map lookup `claims[key]`. -/
def lookupClaim (claims : Claims) (key : List Char) : Option ClaimValue :=
  (claims.find? (fun kv => kv.1 == key)).map (fun kv => kv.2)

/-- Go `claims["sub"].(string)`: `some s` exactly when the key maps to a string. -/
def claimString (claims : Claims) (key : List Char) : Option (List Char) :=
  match lookupClaim claims key with
  | some (ClaimValue.str s) => some s
  | _ => none

/-- `rest.Config` as used by the source: the API host plus the remaining ambient
TLS/credential material, which the fallback literal leaves at its zero value. -/
structure RestConfig where
  host : List Char
  tlsConfigData : List Char
deriving DecidableEq

/-- The address mapping performed by a transport's `DialContext`: requested
address to actually-dialed address. -/
def DialFunc := List Char → List Char

/-- The HTTP client's transport: either the concrete `*http.Transport` (carrying
its dial address mapping) or any other `http.RoundTripper`, for which the type
assertion in the source fails. -/
inductive Transport where
  | httpTransport (dial : DialFunc)
  | otherTransport

/-- `oidc.Config` fields set by the source. -/
structure OIDCConfig where
  clientID : List Char
  skipIssuerCheck : Bool
deriving DecidableEq

/-- Outcome of `verifier.Verify` followed by `idToken.Claims(&claims)`, both
external library calls: verification error, claims-decode error, or claims. -/
inductive VerifyOutcome where
  | verifyErr (msg : List Char)
  | claimsDecodeErr
  | ok (claims : Claims)

/-- The request data the handler reads. Gin's `GetHeader` returns the empty
string for an absent header, so the empty list models absent-or-empty. -/
structure Request where
  authorizationHeader : List Char
  method : List Char
  path : List Char
deriving DecidableEq

/-- Per-request gin context state: claims stored by `c.Set("jwt_claims", _)`,
the status and JSON error message of `c.AbortWithStatusJSON`, and whether
`c.Next()` ran (the protected downstream handler was invoked). -/
structure GinContext where
  contextClaims : Option Claims
  aborted : Option (Nat × List Char)
  nextCalled : Bool
deriving DecidableEq

/-- The fresh context a request starts from. -/
def freshContext : GinContext := { contextClaims := none, aborted := none, nextCalled := false }

/-- `c.AbortWithStatusJSON(status, gin.H(error: msg))`; the handler returns
immediately afterwards in every branch that calls it. -/
def abortWithStatusJSON (c : GinContext) (status : Nat) (msg : List Char) : GinContext :=
  { c with aborted := some (status, msg) }

/-- `c.Set("jwt_claims", claims)`. -/
def ginSet (c : GinContext) (claims : Claims) : GinContext :=
  { c with contextClaims := some claims }

/-- `c.Next()`. -/
def ginNext (c : GinContext) : GinContext :=
  { c with nextCalled := true }

/-! ## Error messages written by the source -/

def missingHeaderMsg : List Char := "missing authorization header".data

def invalidFormatMsg : List Char := "invalid authorization header format".data

def invalidTokenMsg (e : List Char) : List Char := "invalid token: ".data ++ e

def claimsExtractMsg : List Char := "failed to extract token claims".data

def subjectMissingMsg : List Char := "subject claim missing".data

def subjectDeniedMsg (s : List Char) : List Char :=
  "subject validation failed: subject \"".data ++ s ++ "\" not in allowed list".data

def serviceUnavailableMsg : List Char := "JWT authentication not available".data

/-! ## Construction-time logic of `JWTAuthMiddleware` -/

/-- The `rest.InClusterConfig()` fallback: on error the source continues with
`rest.Config` whose `Host` is `https://kubernetes.default.svc` and every other
field at its zero value; on success the loaded config is used as is. -/
def resolveClusterConfig : Except (List Char) RestConfig → RestConfig
  | Except.ok cfg => cfg
  | Except.error _ => { host := canonicalServiceURL, tlsConfigData := [] }

/-- The dial override installed under DNS bypass: replace the first occurrence
of `kubernetes.default.svc` in the requested address by the configured IP when
the address contains it, else dial the address unchanged. -/
def bypassDialAddr (kubernetesServiceIP addr : List Char) : List Char :=
  if substrContains addr canonicalServiceName then
    replaceFirst addr canonicalServiceName kubernetesServiceIP
  else addr

/-- The transport configuration step: when bypass is enabled and the client's
transport is a concrete `*http.Transport`, clone it and install the bypass
dial; otherwise (type assertion fails, or bypass disabled) leave it unchanged. -/
def configureTransport (dnsBypass : Bool) (kubernetesServiceIP : List Char)
    (t : Transport) : Transport :=
  if dnsBypass then
    match t with
    | Transport.httpTransport _ => Transport.httpTransport (bypassDialAddr kubernetesServiceIP)
    | Transport.otherTransport => t
  else t

/-- The address a transport actually dials for a requested address. A transport
other than `*http.Transport` dials the requested address unchanged. -/
def transportDialAddr : Transport → List Char → List Char
  | Transport.httpTransport d, addr => d addr
  | Transport.otherTransport, addr => addr

/-- The verifier configuration: `ClientID` is the expected audience, and
`SkipIssuerCheck` (zero value false) is set to true when DNS bypass is enabled. -/
def mkVerifierConfig (expectedAudience : List Char) (dnsBypass : Bool) : OIDCConfig :=
  let base : OIDCConfig := { clientID := expectedAudience, skipIssuerCheck := false }
  if dnsBypass then { base with skipIssuerCheck := true } else base

/-- Everything `JWTAuthMiddleware` computes before creating the OIDC provider. -/
structure MiddlewareState where
  k8sConfig : RestConfig
  dnsBypassEnabled : Bool
  transport : Transport
  issuerURL : List Char
  verifierConfig : OIDCConfig

/-- The construction-time part of `JWTAuthMiddleware`: resolve the cluster
config, read `KUBERNETES_SERVICE_IP`, configure the transport, fix the issuer,
and build the verifier configuration. -/
def initMiddleware (config : JWTAuthConfig) (inClusterResult : Except (List Char) RestConfig)
    (env : List (List Char × List Char)) (baseTransport : Transport) : MiddlewareState :=
  let k8sConfig := resolveClusterConfig inClusterResult
  let kubernetesServiceIP := getEnv env kubernetesServiceIPVar
  let dnsBypassEnabled := kubernetesServiceIP != []
  { k8sConfig := k8sConfig,
    dnsBypassEnabled := dnsBypassEnabled,
    transport := configureTransport dnsBypassEnabled kubernetesServiceIP baseTransport,
    issuerURL := canonicalServiceURL,
    verifierConfig := mkVerifierConfig config.expectedAudience dnsBypassEnabled }

/-! ## The per-request pipeline -/

/-- `validateSubject` from the source: nil (here `true`) exactly when some
entry of the allowed list equals the subject. -/
def validateSubject (subject : List Char) : List (List Char) → Bool
  | [] => false
  | allowed :: rest => if subject = allowed then true else validateSubject subject rest

/-- The subject-validation block plus the shared `c.Set`/`c.Next` tail of the
handler: skipped entirely when `AllowedSubjects` is empty. -/
def subjectStage (config : JWTAuthConfig) (claims : Claims) (c : GinContext) : GinContext :=
  if config.allowedSubjects ≠ [] then
    match claimString claims subClaimKey with
    | none => abortWithStatusJSON c 401 subjectMissingMsg
    | some subject =>
      if validateSubject subject config.allowedSubjects then ginNext (ginSet c claims)
      else abortWithStatusJSON c 401 (subjectDeniedMsg subject)
  else ginNext (ginSet c claims)

/-- `verifier.Verify` followed by claims extraction, with the two failure
branches of the source. -/
def verifyStage (config : JWTAuthConfig) (verify : List Char → VerifyOutcome)
    (rawToken : List Char) (c : GinContext) : GinContext :=
  match verify rawToken with
  | VerifyOutcome.verifyErr e => abortWithStatusJSON c 401 (invalidTokenMsg e)
  | VerifyOutcome.claimsDecodeErr => abortWithStatusJSON c 401 claimsExtractMsg
  | VerifyOutcome.ok claims => subjectStage config claims c

/-- The request handler returned by `JWTAuthMiddleware` when the provider was
built: header presence check, `SplitN(authHeader, " ", 2)` scheme check, then
verification. -/
def handleRequest (config : JWTAuthConfig) (verify : List Char → VerifyOutcome)
    (req : Request) (c : GinContext) : GinContext :=
  if req.authorizationHeader = [] then
    abortWithStatusJSON c 401 missingHeaderMsg
  else
    match goSplitN2 ' ' req.authorizationHeader with
    | (_, none) => abortWithStatusJSON c 401 invalidFormatMsg
    | (p0, some rawToken) =>
      if p0 ≠ bearerWord then abortWithStatusJSON c 401 invalidFormatMsg
      else verifyStage config verify rawToken c

/-- `JWTAuthMiddleware` end to end: construction (whose provider-building
outcome is the external `providerResult`, and whose verifier behaviour is the
external `verify`), then either the permanently failing 503 handler or the
request pipeline. -/
def JWTAuthMiddleware (config : JWTAuthConfig)
    (inClusterResult : Except (List Char) RestConfig)
    (env : List (List Char × List Char)) (baseTransport : Transport)
    (providerResult : Except (List Char) Unit)
    (verify : List Char → VerifyOutcome) :
    Request → GinContext → GinContext :=
  let _st := initMiddleware config inClusterResult env baseTransport
  match providerResult with
  | Except.error _ => fun _ c => abortWithStatusJSON c 503 serviceUnavailableMsg
  | Except.ok _ => fun req c => handleRequest config verify req c

/-! ## The truthbeam processor configuration -/

namespace Truthbeam

/-- `client.DefaultCacheTTL`, `time.Duration(0)` (durations as nanoseconds). -/
def DefaultCacheTTL : Int := 0

/-- `client.DefaultMaxCacheSizeMB`. -/
def DefaultMaxCacheSizeMB : Int := 512

/-- `truthbeam.Config`: the embedded `ClientConfig`'s endpoint plus the cache
settings the validator inspects. -/
structure Config where
  endpoint : List Char
  cacheTTL : Int
  maxCacheSizeMB : Int
deriving DecidableEq

/-- `Config.Validate`: the error returned (if any) together with the config
after the method's in-place normalizations. -/
def Config.Validate (cfg : Config) : Option (List Char) × Config :=
  if cfg.endpoint = [] then (some ("endpoint must be specified".data), cfg)
  else
    let cfg1 := if cfg.cacheTTL = 0 then { cfg with cacheTTL := DefaultCacheTTL } else cfg
    let cfg2 := if cfg1.maxCacheSizeMB = 0 then
        { cfg1 with maxCacheSizeMB := DefaultMaxCacheSizeMB } else cfg1
    if cfg2.maxCacheSizeMB < 0 then (some ("max_cache_size_mb must be non-negative".data), cfg2)
    else (none, cfg2)

end Truthbeam

/-! ## Helper lemmas -/

theorem mkVerifierConfig_skipIssuerCheck (aud : List Char) (b : Bool) :
    (mkVerifierConfig aud b).skipIssuerCheck = b := by
  cases b <;> rfl

theorem mkVerifierConfig_clientID (aud : List Char) (b : Bool) :
    (mkVerifierConfig aud b).clientID = aud := by
  cases b <;> rfl

theorem goSplitN2_sep_append (sep : Char) (pre rest : List Char) (h : sep ∉ pre) :
    goSplitN2 sep (pre ++ sep :: rest) = (pre, some rest) := by
  induction pre with
  | nil => simp [goSplitN2]
  | cons c cs ih =>
    have hc : ¬ c = sep := fun hc => h (by simp [hc])
    have hcs : sep ∉ cs := fun hm => h (List.mem_cons_of_mem _ hm)
    simp [goSplitN2, hc, ih hcs]

/-! ## C2: issuer check disabled exactly under DNS bypass, audience always set -/

/-- C2: in the constructed middleware state, the verifier's issuer check is
skipped iff DNS bypass is enabled, DNS bypass is enabled iff the environment
variable `KUBERNETES_SERVICE_IP` is non-empty, and the verifier's expected
audience (`ClientID`) is always `ExpectedAudience`. -/
theorem issuer_check_toggle (config : JWTAuthConfig)
    (inCluster : Except (List Char) RestConfig) (env : List (List Char × List Char))
    (tr : Transport) :
    ((initMiddleware config inCluster env tr).verifierConfig.skipIssuerCheck = true ↔
      (initMiddleware config inCluster env tr).dnsBypassEnabled = true) ∧
    ((initMiddleware config inCluster env tr).dnsBypassEnabled = true ↔
      getEnv env kubernetesServiceIPVar ≠ []) ∧
    (initMiddleware config inCluster env tr).verifierConfig.clientID =
      config.expectedAudience := by
  refine ⟨?_, ?_, ?_⟩
  · simp [initMiddleware, mkVerifierConfig_skipIssuerCheck]
  · simp [initMiddleware, bne_iff_ne]
  · simp [initMiddleware, mkVerifierConfig_clientID]

/-! ## C5: missing Authorization header -/

/-- C5: a request whose Authorization header is absent (gin returns the empty
string) is rejected with 401 and the missing-header message, independent of
the verifier, the configuration and every other part of the request. -/
theorem missing_header_rejected (config : JWTAuthConfig)
    (verify : List Char → VerifyOutcome) (req : Request) (c : GinContext)
    (h : req.authorizationHeader = []) :
    handleRequest config verify req c = abortWithStatusJSON c 401 missingHeaderMsg := by
  simp [handleRequest, h]

theorem missing_header_rejected_witness :
    handleRequest { expectedAudience := "aud".data, allowedSubjects := [] }
        (fun _ => VerifyOutcome.claimsDecodeErr)
        { authorizationHeader := [], method := "GET".data, path := "/v1".data }
        freshContext =
      abortWithStatusJSON freshContext 401 missingHeaderMsg :=
  missing_header_rejected _ _ _ _ rfl

/-! ## C6: permanent 503 on provider construction failure -/

/-- C6: when OIDC provider construction fails, every request gets exactly the
503 response with the `JWT authentication not available` body — no claims are
stored, the downstream handler never runs, and no other outcome is possible. -/
theorem provider_failure_always_503 (config : JWTAuthConfig)
    (inCluster : Except (List Char) RestConfig) (env : List (List Char × List Char))
    (tr : Transport) (e : List Char) (verify : List Char → VerifyOutcome)
    (req : Request) :
    JWTAuthMiddleware config inCluster env tr (Except.error e) verify req freshContext =
      { contextClaims := none, aborted := some (503, serviceUnavailableMsg),
        nextCalled := false } := by
  rfl

/-! ## C8: in-cluster config fallback -/

/-- C8: the cluster-identity resolution never fails: on load error it yields
the default config with host `https://kubernetes.default.svc` (all other fields
zero) and the middleware construction proceeds exactly as with that default;
on success the loaded config is used unchanged. -/
theorem cluster_config_fallback (e : List Char) (cfg : RestConfig)
    (config : JWTAuthConfig) (env : List (List Char × List Char)) (tr : Transport)
    (pr : Except (List Char) Unit) (verify : List Char → VerifyOutcome)
    (req : Request) (c : GinContext) :
    resolveClusterConfig (Except.error e) =
      { host := canonicalServiceURL, tlsConfigData := [] } ∧
    resolveClusterConfig (Except.ok cfg) = cfg ∧
    initMiddleware config (Except.error e) env tr =
      initMiddleware config
        (Except.ok { host := canonicalServiceURL, tlsConfigData := [] }) env tr ∧
    JWTAuthMiddleware config (Except.error e) env tr pr verify req c =
      JWTAuthMiddleware config
        (Except.ok { host := canonicalServiceURL, tlsConfigData := [] }) env tr
        pr verify req c := by
  refine ⟨rfl, rfl, rfl, ?_⟩
  cases pr <;> rfl

/-! ## C9: bypass environment set but transport not an `*http.Transport` -/

/-- C9: with `KUBERNETES_SERVICE_IP` set but a transport that is not the
concrete `*http.Transport`, no bypass dial is installed (every address is
dialed unchanged) while the issuer check is nonetheless disabled. -/
theorem bypass_without_http_transport (config : JWTAuthConfig)
    (inCluster : Except (List Char) RestConfig) (env : List (List Char × List Char))
    (h : getEnv env kubernetesServiceIPVar ≠ []) :
    (∀ addr, transportDialAddr
        (initMiddleware config inCluster env Transport.otherTransport).transport addr
      = addr) ∧
    (initMiddleware config inCluster env Transport.otherTransport).verifierConfig.skipIssuerCheck
      = true ∧
    (initMiddleware config inCluster env Transport.otherTransport).dnsBypassEnabled = true := by
  have hb : (getEnv env kubernetesServiceIPVar != []) = true := by
    simpa [bne_iff_ne] using h
  refine ⟨fun addr => ?_, ?_, ?_⟩
  · simp [initMiddleware, configureTransport, transportDialAddr, hb]
  · simp [initMiddleware, mkVerifierConfig_skipIssuerCheck, hb]
  · simp [initMiddleware, hb]

theorem bypass_without_http_transport_witness :
    getEnv [(kubernetesServiceIPVar, "10.96.0.1".data)] kubernetesServiceIPVar ≠ [] ∧
    transportDialAddr
        (initMiddleware { expectedAudience := "aud".data, allowedSubjects := [] }
          (Except.ok { host := canonicalServiceURL, tlsConfigData := [] })
          [(kubernetesServiceIPVar, "10.96.0.1".data)] Transport.otherTransport).transport
        ("kubernetes.default.svc:443".data) = "kubernetes.default.svc:443".data ∧
    (initMiddleware { expectedAudience := "aud".data, allowedSubjects := [] }
        (Except.ok { host := canonicalServiceURL, tlsConfigData := [] })
        [(kubernetesServiceIPVar, "10.96.0.1".data)]
        Transport.otherTransport).verifierConfig.skipIssuerCheck = true := by
  refine ⟨by decide, ?_, ?_⟩
  · exact (bypass_without_http_transport _ _ _ (by decide)).1 _
  · exact (bypass_without_http_transport _ _ _ (by decide)).2.1

/-! ## C10: truthbeam `Config.Validate` normalization -/

/-- C10: for a config with non-empty endpoint and non-negative cache size,
`Validate` succeeds, leaves `CacheTTL` unchanged for every original value
(the default it assigns to 0 is itself 0), and leaves `MaxCacheSizeMB`
unchanged unless it was 0, in which case it becomes 512. -/
theorem truthbeam_validate_defaults (cfg : Truthbeam.Config)
    (hend : cfg.endpoint ≠ []) (hmax : 0 ≤ cfg.maxCacheSizeMB) :
    (Truthbeam.Config.Validate cfg).1 = none ∧
    (Truthbeam.Config.Validate cfg).2.cacheTTL = cfg.cacheTTL ∧
    (cfg.maxCacheSizeMB = 0 → (Truthbeam.Config.Validate cfg).2.maxCacheSizeMB = 512) ∧
    (cfg.maxCacheSizeMB ≠ 0 →
      (Truthbeam.Config.Validate cfg).2.maxCacheSizeMB = cfg.maxCacheSizeMB) := by
  have hlt : ¬ cfg.maxCacheSizeMB < 0 := by omega
  by_cases hT : cfg.cacheTTL = 0 <;> by_cases hM : cfg.maxCacheSizeMB = 0 <;>
    simp [Truthbeam.Config.Validate, hend, hT, hM, hlt,
      Truthbeam.DefaultCacheTTL, Truthbeam.DefaultMaxCacheSizeMB]

theorem truthbeam_validate_defaults_witness :
    (Truthbeam.Config.Validate
        { endpoint := "http://localhost:8081".data, cacheTTL := 0, maxCacheSizeMB := 0 }).1
      = none ∧
    (Truthbeam.Config.Validate
        { endpoint := "http://localhost:8081".data, cacheTTL := 0, maxCacheSizeMB := 0 }).2.cacheTTL
      = 0 ∧
    (Truthbeam.Config.Validate
        { endpoint := "http://localhost:8081".data, cacheTTL := 0, maxCacheSizeMB := 0 }).2.maxCacheSizeMB
      = 512 := by
  refine ⟨?_, ?_, ?_⟩
  · exact (truthbeam_validate_defaults _ (by decide) (by decide)).1
  · exact (truthbeam_validate_defaults _ (by decide) (by decide)).2.1
  · exact (truthbeam_validate_defaults _ (by decide) (by decide)).2.2.1 rfl

/-! ## C7: rejection leaves no partial state -/

theorem handleRequest_cases (config : JWTAuthConfig)
    (verify : List Char → VerifyOutcome) (req : Request) (c : GinContext) :
    (∃ s m, handleRequest config verify req c = abortWithStatusJSON c s m) ∨
    (∃ claims, handleRequest config verify req c = ginNext (ginSet c claims)) := by
  unfold handleRequest verifyStage subjectStage
  repeat' split
  all_goals first
  | exact Or.inl ⟨_, _, rfl⟩
  | exact Or.inr ⟨_, rfl⟩

/-- C7: whenever the middleware aborts a request (any rejection branch,
including the permanent 503), no claims have been stored in the context and
the protected downstream handler was never invoked. -/
theorem rejection_retains_no_state (config : JWTAuthConfig)
    (inCluster : Except (List Char) RestConfig) (env : List (List Char × List Char))
    (tr : Transport) (pr : Except (List Char) Unit)
    (verify : List Char → VerifyOutcome) (req : Request)
    (h : (JWTAuthMiddleware config inCluster env tr pr verify req freshContext).aborted
        ≠ none) :
    (JWTAuthMiddleware config inCluster env tr pr verify req freshContext).contextClaims
        = none ∧
    (JWTAuthMiddleware config inCluster env tr pr verify req freshContext).nextCalled
        = false := by
  cases pr with
  | error e => exact ⟨rfl, rfl⟩
  | ok u =>
    have hmid : JWTAuthMiddleware config inCluster env tr (Except.ok u) verify req
        freshContext = handleRequest config verify req freshContext := rfl
    rcases handleRequest_cases config verify req freshContext with
      ⟨s, m, hcase⟩ | ⟨claims, hcase⟩
    · rw [hmid, hcase]; exact ⟨rfl, rfl⟩
    · exfalso; apply h; rw [hmid, hcase]; rfl

theorem rejection_retains_no_state_witness :
    (JWTAuthMiddleware { expectedAudience := "aud".data, allowedSubjects := [] }
        (Except.ok { host := canonicalServiceURL, tlsConfigData := [] }) []
        Transport.otherTransport (Except.ok ()) (fun _ => VerifyOutcome.claimsDecodeErr)
        { authorizationHeader := [], method := [], path := [] } freshContext).aborted
      ≠ none ∧
    (JWTAuthMiddleware { expectedAudience := "aud".data, allowedSubjects := [] }
        (Except.ok { host := canonicalServiceURL, tlsConfigData := [] }) []
        Transport.otherTransport (Except.ok ()) (fun _ => VerifyOutcome.claimsDecodeErr)
        { authorizationHeader := [], method := [], path := [] } freshContext).contextClaims
      = none ∧
    (JWTAuthMiddleware { expectedAudience := "aud".data, allowedSubjects := [] }
        (Except.ok { host := canonicalServiceURL, tlsConfigData := [] }) []
        Transport.otherTransport (Except.ok ()) (fun _ => VerifyOutcome.claimsDecodeErr)
        { authorizationHeader := [], method := [], path := [] } freshContext).nextCalled
      = false := by
  refine ⟨by decide, ?_, ?_⟩
  · exact (rejection_retains_no_state _ _ _ _ _ _ _ (by decide)).1
  · exact (rejection_retains_no_state _ _ _ _ _ _ _ (by decide)).2

/-! ## C4: subject allow-list -/

/-- C4: `validateSubject` accepts exactly on character-for-character membership
in the allowed list; with an empty `AllowedSubjects` the subject stage passes
every request straight through; and in the gateway a verified token without a
string `sub` claim is rejected 401 when `AllowedSubjects` is non-empty. -/
theorem subject_allowlist_check :
    (∀ (s : List Char) (allowed : List (List Char)),
      validateSubject s allowed = true ↔ s ∈ allowed) ∧
    (∀ (config : JWTAuthConfig) (claims : Claims) (c : GinContext),
      config.allowedSubjects = [] →
      subjectStage config claims c = ginNext (ginSet c claims)) ∧
    (∀ (config : JWTAuthConfig) (verify : List Char → VerifyOutcome)
      (tok : List Char) (claims : Claims) (m p : List Char) (c : GinContext),
      config.allowedSubjects ≠ [] →
      verify tok = VerifyOutcome.ok claims →
      claimString claims subClaimKey = none →
      handleRequest config verify
          { authorizationHeader := bearerWord ++ ' ' :: tok, method := m, path := p } c =
        abortWithStatusJSON c 401 subjectMissingMsg) := by
  refine ⟨?_, ?_, ?_⟩
  · intro s allowed
    induction allowed with
    | nil => simp [validateSubject]
    | cons a t ih =>
      by_cases h : s = a <;> simp [validateSubject, h, ih]
  · intro config claims c h
    simp [subjectStage, h]
  · intro config verify tok claims m p c hne hv hsub
    have hsp : (' ' : Char) ∉ bearerWord := by decide
    simp [handleRequest, goSplitN2_sep_append ' ' bearerWord tok hsp,
      verifyStage, hv, subjectStage, hne, hsub]

theorem subject_allowlist_check_witness :
    validateSubject "alice".data ["alice".data] = true ∧
    subjectStage { expectedAudience := "aud".data, allowedSubjects := [] } [] freshContext =
      ginNext (ginSet freshContext []) ∧
    handleRequest { expectedAudience := "aud".data, allowedSubjects := ["alice".data] }
        (fun _ => VerifyOutcome.ok [])
        { authorizationHeader := bearerWord ++ ' ' :: "tok".data, method := [], path := [] }
        freshContext =
      abortWithStatusJSON freshContext 401 subjectMissingMsg := by
  refine ⟨?_, ?_, ?_⟩
  · exact (subject_allowlist_check.1 _ _).mpr (by decide)
  · exact subject_allowlist_check.2.1 _ _ _ rfl
  · exact subject_allowlist_check.2.2 _ _ _ _ _ _ _ (by decide) rfl rfl

/-! ## C3: Bearer scheme check -/

def isSpaceChar (ch : Char) : Bool :=
  ch = ' ' || ch = '\t' || ch = '\n' || ch = '\r'

def specFieldsAux : List Char → List Char → List (List Char)
  | [], acc => if acc.isEmpty then [] else [acc.reverse]
  | ch :: rest, acc =>
    if isSpaceChar ch then
      if acc.isEmpty then specFieldsAux rest []
      else acc.reverse :: specFieldsAux rest []
    else specFieldsAux rest (ch :: acc)

/-- Modelled from the claim's words, for comparison with the source's
`strings.SplitN(authHeader, " ", 2)`: the whitespace-separated parts of a
header (split on runs of whitespace, empty parts dropped). -/
def specWhitespaceFields (s : List Char) : List (List Char) :=
  specFieldsAux s []

/-- C3 counterexample: the header `Bearer a b` has three whitespace-separated
parts, so under the claim it must be rejected with the bad-scheme message
without invoking the Verifier; but the code accepts its scheme, the outcome
depends on the Verifier (so the Verifier is invoked, on the token `a b`),
and the rejection the failing Verifier produces is not the bad-scheme one. -/
theorem bearer_scheme_check_counterexample :
    (specWhitespaceFields "Bearer a b".data).length ≠ 2 ∧
    (specWhitespaceFields "Bearer a b".data).head? = some bearerWord ∧
    handleRequest { expectedAudience := "aud".data, allowedSubjects := [] }
        (fun _ => VerifyOutcome.ok [])
        { authorizationHeader := "Bearer a b".data, method := [], path := [] }
        freshContext ≠
      handleRequest { expectedAudience := "aud".data, allowedSubjects := [] }
        (fun _ => VerifyOutcome.verifyErr "boom".data)
        { authorizationHeader := "Bearer a b".data, method := [], path := [] }
        freshContext ∧
    (handleRequest { expectedAudience := "aud".data, allowedSubjects := [] }
        (fun _ => VerifyOutcome.verifyErr "boom".data)
        { authorizationHeader := "Bearer a b".data, method := [], path := [] }
        freshContext).aborted ≠ some (401, invalidFormatMsg) := by
  refine ⟨by decide, by decide, by decide, by decide⟩

/-- C3 amended: the code splits the header at its first space character. A
non-empty header with no space, or whose segment before the first space is
not exactly `Bearer`, is rejected 401 with the bad-scheme message and the
Verifier is never invoked (the outcome is the same for every verifier); a
header of the form `Bearer <rest>` passes the scheme check with the whole
remainder `<rest>` — even one containing further spaces — as the token. -/
theorem bearer_scheme_check_amended :
    (∀ (config : JWTAuthConfig) (verify verify2 : List Char → VerifyOutcome)
      (req : Request) (c : GinContext),
      req.authorizationHeader ≠ [] →
      ((goSplitN2 ' ' req.authorizationHeader).2 = none ∨
        (goSplitN2 ' ' req.authorizationHeader).1 ≠ bearerWord) →
      handleRequest config verify req c = abortWithStatusJSON c 401 invalidFormatMsg ∧
      handleRequest config verify req c = handleRequest config verify2 req c) ∧
    (∀ (config : JWTAuthConfig) (verify : List Char → VerifyOutcome)
      (tok m p : List Char) (c : GinContext),
      handleRequest config verify
          { authorizationHeader := bearerWord ++ ' ' :: tok, method := m, path := p } c =
        verifyStage config verify tok c) := by
  constructor
  · intro config verify verify2 req c hne hbad
    have hmain : ∀ v : List Char → VerifyOutcome,
        handleRequest config v req c = abortWithStatusJSON c 401 invalidFormatMsg := by
      intro v
      unfold handleRequest
      rw [if_neg hne]
      rcases hs : goSplitN2 ' ' req.authorizationHeader with ⟨p0, rest⟩
      rw [hs] at hbad
      cases rest with
      | none => rfl
      | some rawToken =>
        rcases hbad with hbad | hbad
        · exact absurd hbad (by simp)
        · simp only at hbad
          simp [hbad]
    exact ⟨hmain verify, (hmain verify).trans (hmain verify2).symm⟩
  · intro config verify tok m p c
    have hsp : (' ' : Char) ∉ bearerWord := by decide
    simp [handleRequest, goSplitN2_sep_append ' ' bearerWord tok hsp]

theorem bearer_scheme_check_amended_witness :
    ("Basic abc".data ≠ ([] : List Char)) ∧
    (goSplitN2 ' ' "Basic abc".data).1 ≠ bearerWord ∧
    handleRequest { expectedAudience := "aud".data, allowedSubjects := [] }
        (fun _ => VerifyOutcome.ok [])
        { authorizationHeader := "Basic abc".data, method := [], path := [] }
        freshContext =
      abortWithStatusJSON freshContext 401 invalidFormatMsg := by
  refine ⟨by decide, by decide, ?_⟩
  exact (bearer_scheme_check_amended.1 _ _ (fun _ => VerifyOutcome.claimsDecodeErr)
    _ _ (by decide) (Or.inr (by decide))).1

/-! ## C1: DNS-bypass dial rewrite -/

theorem isPrefixOf_append_self (l r : List Char) : l.isPrefixOf (l ++ r) = true := by
  induction l with
  | nil => simp [List.isPrefixOf]
  | cons c cs ih => simp [List.isPrefixOf, ih]

theorem substrContains_of_isPrefixOf (s pat : List Char) (h : pat.isPrefixOf s = true) :
    substrContains s pat = true := by
  cases s with
  | nil =>
    cases pat with
    | nil => rfl
    | cons q qs => simp [List.isPrefixOf] at h
  | cons c rest => simp [substrContains, h]

theorem replaceFirst_append_self (pat rest rep : List Char) (h : pat ≠ []) :
    replaceFirst (pat ++ rest) pat rep = rep ++ rest := by
  cases pat with
  | nil => exact absurd rfl h
  | cons q qs =>
    have hpre : (q :: qs).isPrefixOf (q :: (qs ++ rest)) = true := by
      have hp := isPrefixOf_append_self (q :: qs) rest
      rwa [List.cons_append] at hp
    show replaceFirst (q :: (qs ++ rest)) (q :: qs) rep = rep ++ rest
    unfold replaceFirst
    rw [if_pos hpre]
    simp [List.drop_left]

/-- Modelled from the claim's notion of the hostname component of a dial
address: the part of `host:port` before the last colon, or the whole address
when there is no colon. -/
def specHostOf (addr : List Char) : List Char :=
  match addr.reverse.dropWhile (fun ch => ch != ':') with
  | [] => addr
  | _ :: hostRev => hostRev.reverse

/-- C1 counterexample: with bypass enabled, the address
`kubernetes.default.svc.cluster.local:443` has a hostname different from the
canonical `kubernetes.default.svc`, so under the claim it must be dialed
unchanged; but the installed dial function rewrites it (the code substitutes
on substring containment, not hostname equality). -/
theorem dns_bypass_dial_counterexample :
    specHostOf "kubernetes.default.svc.cluster.local:443".data ≠ canonicalServiceName ∧
    (initMiddleware { expectedAudience := "aud".data, allowedSubjects := [] }
        (Except.ok { host := canonicalServiceURL, tlsConfigData := [] })
        [(kubernetesServiceIPVar, "10.96.0.1".data)]
        (Transport.httpTransport (fun a => a))).dnsBypassEnabled = true ∧
    transportDialAddr
        (initMiddleware { expectedAudience := "aud".data, allowedSubjects := [] }
          (Except.ok { host := canonicalServiceURL, tlsConfigData := [] })
          [(kubernetesServiceIPVar, "10.96.0.1".data)]
          (Transport.httpTransport (fun a => a))).transport
        "kubernetes.default.svc.cluster.local:443".data ≠
      "kubernetes.default.svc.cluster.local:443".data := by
  refine ⟨by decide, by decide, by decide⟩

/-- C1 amended: while bypass is enabled and the dial override is installed,
an address of the form `kubernetes.default.svc:<port>` is dialed as
`<TargetAddress>:<port>` (hostname replaced, port preserved), and an address
not containing `kubernetes.default.svc` as a substring is dialed unchanged;
the rewrite is by first-substring-occurrence, so an address whose hostname
differs from the canonical name but contains it is also rewritten. -/
theorem dns_bypass_dial_rewrite (config : JWTAuthConfig)
    (inCluster : Except (List Char) RestConfig) (env : List (List Char × List Char))
    (d : DialFunc) (h : getEnv env kubernetesServiceIPVar ≠ []) :
    (∀ port, transportDialAddr
        (initMiddleware config inCluster env (Transport.httpTransport d)).transport
        (canonicalServiceName ++ ':' :: port) =
      getEnv env kubernetesServiceIPVar ++ ':' :: port) ∧
    (∀ addr, substrContains addr canonicalServiceName = false →
      transportDialAddr
        (initMiddleware config inCluster env (Transport.httpTransport d)).transport
        addr = addr) := by
  have hb : (getEnv env kubernetesServiceIPVar != []) = true := by
    simpa [bne_iff_ne] using h
  have hcanon : canonicalServiceName ≠ [] := by decide
  constructor
  · intro port
    have hpre : canonicalServiceName.isPrefixOf
        (canonicalServiceName ++ ':' :: port) = true :=
      isPrefixOf_append_self canonicalServiceName (':' :: port)
    simp [initMiddleware, configureTransport, transportDialAddr, hb,
      bypassDialAddr, substrContains_of_isPrefixOf _ _ hpre,
      replaceFirst_append_self canonicalServiceName (':' :: port) _ hcanon]
  · intro addr hno
    simp [initMiddleware, configureTransport, transportDialAddr, hb,
      bypassDialAddr, hno]

theorem dns_bypass_dial_rewrite_witness :
    getEnv [(kubernetesServiceIPVar, "10.96.0.1".data)] kubernetesServiceIPVar ≠ [] ∧
    transportDialAddr
        (initMiddleware { expectedAudience := "aud".data, allowedSubjects := [] }
          (Except.ok { host := canonicalServiceURL, tlsConfigData := [] })
          [(kubernetesServiceIPVar, "10.96.0.1".data)]
          (Transport.httpTransport (fun a => a))).transport
        (canonicalServiceName ++ ':' :: "443".data) =
      getEnv [(kubernetesServiceIPVar, "10.96.0.1".data)] kubernetesServiceIPVar ++
        ':' :: "443".data ∧
    substrContains "10.0.0.5:443".data canonicalServiceName = false ∧
    transportDialAddr
        (initMiddleware { expectedAudience := "aud".data, allowedSubjects := [] }
          (Except.ok { host := canonicalServiceURL, tlsConfigData := [] })
          [(kubernetesServiceIPVar, "10.96.0.1".data)]
          (Transport.httpTransport (fun a => a))).transport
        "10.0.0.5:443".data = "10.0.0.5:443".data := by
  refine ⟨by decide, ?_, by decide, ?_⟩
  · exact (dns_bypass_dial_rewrite _ _ _ _ (by decide)).1 _
  · exact (dns_bypass_dial_rewrite _ _ _ _ (by decide)).2 _ (by decide)
